import Mathlib

/-!
Shallow embedding of the pet-feeder Arduino controller
(src/PetFeederFinalProject/PetFeederFinalProject.ino) and verification of
the specified properties of its control loop, serial protocol handling,
target-animal configuration and LED indicator state machine.

The serial channel is modelled as a list of pending complete input lines
(the hardware accumulates bytes into newline-terminated frames) and a list
of emitted output messages.  Protocol messages are distinguished from
diagnostic log prints, which travel on the same channel in the source.
Timestamps are `millis()` values; `unsigned long` subtraction is modelled
by `wsub`, subtraction modulo 2^32.
-/

namespace PetFeeder

/-- Timing constant from the source: 20 seconds for Pi to respond after motion. -/
def PI_RESPONSE_TIMEOUT_MS : Nat := 20000

/-- Timing constant from the source: send a heartbeat every 15 s. -/
def HEARTBEAT_INTERVAL_MS : Nat := 15000

/-- Timing constant from the source: consider motion active for 3 minutes. -/
def MOTION_ACTIVE_TIMEOUT_MS : Nat := 180000

/-- Timing constant from the source: flash LED for 2 seconds on success. -/
def LED_FLASH_DURATION_MS : Nat := 2000

/-- Timing constant from the source: blink speed while flashing. -/
def LED_BLINK_INTERVAL_MS : Nat := 200

/-- Unsigned 32-bit subtraction, the semantics of `a - b` on Arduino
`unsigned long` operands as used in all elapsed-time comparisons. -/
def wsub (a b : Nat) : Nat := (2 ^ 32 + a % 2 ^ 32 - b % 2 ^ 32) % 2 ^ 32

/-- Whether a character counts as whitespace for the Arduino `String.trim`
(C `isspace`): space, tab, newline, vertical tab, form feed, carriage return. -/
def isSpaceChar (c : Char) : Bool :=
  c == ' ' || c == '\t' || c == '\n' || c == '\x0b' || c == '\x0c' || c == '\r'

/-- Removes leading whitespace characters from a character list. -/
def trimLeftChars : List Char → List Char
  | [] => []
  | c :: cs => if isSpaceChar c then trimLeftChars cs else c :: cs

/-- Embeds the Arduino `String::trim()`: removes leading and trailing
whitespace.  Defined structurally on the character list so that it evaluates
by kernel reduction. -/
def strTrim (s : String) : String :=
  ⟨(trimLeftChars (trimLeftChars s.data).reverse).reverse⟩

/-- Embeds the Arduino `String::length()`. -/
def strLen (s : String) : Nat := s.data.length

/-- Embeds the Arduino `String::startsWith(pre)`. -/
def strStartsWith (s pre : String) : Bool :=
  s.data.take pre.data.length == pre.data

/-- Embeds the Arduino `String::substring(n)` (drop the first `n` characters). -/
def strDrop (s : String) (n : Nat) : String := ⟨s.data.drop n⟩

/-- Embeds the Arduino `String::toUpperCase()`. -/
def strToUpper (s : String) : String := ⟨s.data.map Char.toUpper⟩

/-- One line written to the serial channel by the controller.  The protocol
vocabulary gets dedicated constructors; debug/info prints are `log` lines. -/
inductive OutMsg where
  | arduinoBooting
  | motionDetected
  | arduinoHeartbeat
  | targetAnimal (animal : String)
  | log (line : String)
deriving Repr, DecidableEq

/-- Whether an output line belongs to the outbound protocol vocabulary
(as opposed to a human-readable diagnostic print). -/
def OutMsg.isProtocol : OutMsg → Bool
  | .log _ => false
  | _ => true

/-- The global mutable state of the controller sketch.  `ledPin` models the
level last written to `LED_PIN` with `digitalWrite`. -/
structure CtrlState where
  motionDetectedISRQFlag : Bool
  piIsReady : Bool
  awaitingPiResponseAfterMotion : Bool
  currentTargetAnimal : String
  lastMotionTimestamp : Nat
  lastMotionSignalToPiTime : Nat
  lastHeartbeatToPi : Nat
  isLedFlashing : Bool
  ledFlashStartTime : Nat
  lastLedBlinkTime : Nat
  ledBlinkState : Bool
  ledPin : Bool
deriving Repr, DecidableEq

/-- Pending complete input lines on the serial channel, oldest first. -/
abbrev Buf := List String

/-- The state after `setup()`: variable initialisers of the sketch, with the
LED written LOW. -/
def initState : CtrlState :=
  { motionDetectedISRQFlag := false
    piIsReady := false
    awaitingPiResponseAfterMotion := false
    currentTargetAnimal := "DOG"
    lastMotionTimestamp := 0
    lastMotionSignalToPiTime := 0
    lastHeartbeatToPi := 0
    isLedFlashing := false
    ledFlashStartTime := 0
    lastLedBlinkTime := 0
    ledBlinkState := false
    ledPin := false }

/-- The interrupt service routine: sets the motion flag and nothing else. -/
def handleMotionISR (s : CtrlState) : CtrlState :=
  { s with motionDetectedISRQFlag := true }

/-- Embeds `sendTargetAnimalToPi()`: emits `TARGET_ANIMAL:<animal>` only when
the Pi is ready. -/
def sendTargetAnimalToPi (s : CtrlState) : List OutMsg :=
  if s.piIsReady then
    [OutMsg.targetAnimal s.currentTargetAnimal,
     OutMsg.log ("INFO: Sent TARGET_ANIMAL:" ++ s.currentTargetAnimal ++ " to Pi.")]
  else []

/-- Embeds `startLedFlash()`: enters the flashing state only if not already
flashing, recording the start time and writing the LED HIGH. -/
def startLedFlash (now : Nat) (s : CtrlState) : CtrlState × List OutMsg :=
  if !s.isLedFlashing then
    ({ s with isLedFlashing := true
              ledFlashStartTime := now
              lastLedBlinkTime := now
              ledBlinkState := true
              ledPin := true },
     [OutMsg.log "DEBUG: Starting LED Flash."])
  else (s, [])

/-- Embeds the dispatch chain of `checkPiMessages` on one trimmed, nonempty
line received from the Pi. -/
def dispatchPiMessage (now : Nat) (piMessage : String) (s : CtrlState) :
    CtrlState × List OutMsg :=
  let rx := OutMsg.log ("Arduino RX from Pi: " ++ piMessage)
  if piMessage == "PI_READY" then
    let s1 := { s with piIsReady := true }
    ({ s1 with lastHeartbeatToPi := now },
     [rx, OutMsg.log "INFO: Pi reported READY. Sending current target animal."]
       ++ sendTargetAnimalToPi s1)
  else if strStartsWith piMessage "PI_ACK_TARGET:" then
    (s, [rx, OutMsg.log ("INFO: Pi acknowledged target animal set to: "
           ++ strDrop piMessage 14)])
  else if piMessage == "CAT_CONFIRMED" then
    let s1 := { s with awaitingPiResponseAfterMotion := false }
    if s1.currentTargetAnimal == "CAT" then
      let r := startLedFlash now s1
      (r.1, [rx, OutMsg.log "INFO: Pi confirmed CAT.",
             OutMsg.log "ACTION: Target is CAT, activating flash and bowl!"] ++ r.2)
    else (s1, [rx, OutMsg.log "INFO: Pi confirmed CAT."])
  else if piMessage == "DOG_CONFIRMED" then
    let s1 := { s with awaitingPiResponseAfterMotion := false }
    if s1.currentTargetAnimal == "DOG" then
      let r := startLedFlash now s1
      (r.1, [rx, OutMsg.log "INFO: Pi confirmed DOG.",
             OutMsg.log "ACTION: Target is DOG, activating flash and bowl!"] ++ r.2)
    else (s1, [rx, OutMsg.log "INFO: Pi confirmed DOG."])
  else if piMessage == "WRONG_ANIMAL_DETECTED"
       || piMessage == "NO_ANIMAL_DETECTED_BY_AI"
       || piMessage == "AI_NOT_READY"
       || piMessage == "NO_TARGET_CONFIGURED"
       || strStartsWith piMessage "PI_ERR" then
    ({ s with awaitingPiResponseAfterMotion := false },
     [rx, OutMsg.log "INFO: Pi response received, but not a confirmation for target animal."])
  else if piMessage == "PI_PONG" then
    ({ s with lastHeartbeatToPi := now }, [rx])
  else if piMessage == "PI_SHUTTING_DOWN" then
    ({ s with piIsReady := false, awaitingPiResponseAfterMotion := false },
     [rx, OutMsg.log "WARN: Pi reported shutting down. Setting piIsReady to false."])
  else (s, [rx])

/-- Embeds `checkPiMessages`: reads at most one newline-terminated line per
call, trims it, ignores it when empty, otherwise dispatches it. -/
def checkPiMessages (now : Nat) (s : CtrlState) (buf : Buf) :
    CtrlState × Buf × List OutMsg :=
  match buf with
  | [] => (s, [], [])
  | line :: rest =>
    let piMessage := strTrim line
    if strLen piMessage == 0 then (s, rest, [])
    else
      let r := dispatchPiMessage now piMessage s
      (r.1, rest, r.2)

/-- Embeds the motion-latch consumption block of `loop()`: if the ISR flag is
set, record the timestamp, clear the flag, and send `MOTION_DETECTED` exactly
when the Pi is ready and no response is already awaited. -/
def motionStep (now : Nat) (s : CtrlState) : CtrlState × List OutMsg :=
  if s.motionDetectedISRQFlag then
    let s1 := { s with lastMotionTimestamp := now, motionDetectedISRQFlag := false }
    if s1.piIsReady && !s1.awaitingPiResponseAfterMotion then
      ({ s1 with awaitingPiResponseAfterMotion := true, lastMotionSignalToPiTime := now },
       [OutMsg.log "DEBUG: PIR Detected Motion.",
        OutMsg.log ("Sending MOTION_DETECTED to Pi for target: " ++ s1.currentTargetAnimal),
        OutMsg.motionDetected])
    else if !s1.piIsReady then
      (s1, [OutMsg.log "DEBUG: PIR Detected Motion.",
            OutMsg.log "DEBUG: Motion detected, but Pi not ready. Not sending."])
    else
      (s1, [OutMsg.log "DEBUG: PIR Detected Motion.",
            OutMsg.log "DEBUG: Motion detected, but still awaiting previous Pi response."])
  else (s, [])

/-- The motion-active derivation of `loop()`:
`(lastMotionTimestamp > 0) && (currentMillis - lastMotionTimestamp < MOTION_ACTIVE_TIMEOUT_MS)`. -/
def motionIsActive (now : Nat) (s : CtrlState) : Bool :=
  decide (s.lastMotionTimestamp > 0)
    && decide (wsub now s.lastMotionTimestamp < MOTION_ACTIVE_TIMEOUT_MS)

/-- Embeds the Pi-response timeout check of `loop()`. -/
def timeoutStep (now : Nat) (s : CtrlState) : CtrlState × List OutMsg :=
  if s.awaitingPiResponseAfterMotion
      && decide (wsub now s.lastMotionSignalToPiTime > PI_RESPONSE_TIMEOUT_MS) then
    ({ s with awaitingPiResponseAfterMotion := false },
     [OutMsg.log "WARN: Timed out waiting for Pi response to motion. Resetting wait flag."])
  else (s, [])

/-- Embeds `updateLed`: the flashing state overrides the motion-driven output;
on flash expiry the LED is set from the current motion-active value. -/
def updateLed (now : Nat) (active : Bool) (s : CtrlState) : CtrlState × List OutMsg :=
  if s.isLedFlashing then
    if LED_FLASH_DURATION_MS ≤ wsub now s.ledFlashStartTime then
      ({ s with isLedFlashing := false, ledPin := active },
       [OutMsg.log "DEBUG: LED Flash finished."])
    else if LED_BLINK_INTERVAL_MS ≤ wsub now s.lastLedBlinkTime then
      ({ s with ledBlinkState := !s.ledBlinkState
                ledPin := !s.ledBlinkState
                lastLedBlinkTime := now }, [])
    else (s, [])
  else
    ({ s with ledPin := active }, [])

/-- Embeds the heartbeat block of `loop()`. -/
def heartbeatStep (now : Nat) (s : CtrlState) : CtrlState × List OutMsg :=
  if decide (wsub now s.lastHeartbeatToPi > HEARTBEAT_INTERVAL_MS) then
    ({ s with lastHeartbeatToPi := now }, [OutMsg.arduinoHeartbeat])
  else (s, [])

/-- Embeds `handleLocalCommands`: peeks at the first pending character; a line
starting with `S` is parsed as `SET_TARGET:<value>`, a line starting with `T`
as `TEST_FLASH`; anything else drains the input buffer.  A consumed `S`/`T`
line that does not match its command also discards the following line, as the
source discards bytes up to the next newline after `readStringUntil`. -/
def handleLocalCommands (now : Nat) (s : CtrlState) (buf : Buf) :
    CtrlState × Buf × List OutMsg :=
  match buf with
  | [] => (s, [], [])
  | line :: rest =>
    match line.data.head? with
    | none => (s, [], [])
    | some firstChar =>
      if firstChar == 'S' then
      let command := strTrim line
      if strStartsWith command "SET_TARGET:" then
        let newTarget := strToUpper (strDrop command 11)
        if newTarget == "CAT" || newTarget == "DOG" then
          if !(newTarget == s.currentTargetAnimal) then
            let s1 := { s with currentTargetAnimal := newTarget }
            (s1, rest,
             [OutMsg.log ("CONFIG: Target animal preference changed locally to: " ++ newTarget)]
               ++ sendTargetAnimalToPi s1)
          else
            (s, rest, [OutMsg.log ("INFO: Target animal is already " ++ newTarget)])
        else
          (s, rest, [OutMsg.log "ERROR: Invalid target. Use CAT or DOG."])
      else (s, rest.tail, [])
      else if firstChar == 'T' then
      let command := strTrim line
      if strToUpper command == "TEST_FLASH" then
        let r := startLedFlash now s
        (r.1, rest,
         [OutMsg.log "DEBUG: Manually starting LED Flash via Test command."] ++ r.2)
      else (s, rest.tail, [])
      else (s, [], [])

/-- One iteration of `loop()`: handle at most one Pi message, consume the
motion latch, compute the motion-active derivation, apply the response
timeout, update the LED, emit a heartbeat when due, then handle one local
command from whatever input remains. -/
def tick (now : Nat) (s : CtrlState) (buf : Buf) : CtrlState × Buf × List OutMsg :=
  let r1 := checkPiMessages now s buf
  let r2 := motionStep now r1.1
  let active := motionIsActive now r2.1
  let r3 := timeoutStep now r2.1
  let r4 := updateLed now active r3.1
  let r5 := heartbeatStep now r4.1
  let r6 := handleLocalCommands now r5.1 r1.2.1
  (r6.1, r6.2.1, r1.2.2 ++ r2.2 ++ r3.2 ++ r4.2 ++ r5.2 ++ r6.2.2)

/-!
Helper lemmas about the individual phases of `tick`, shared by the claim
theorems below.
-/

/-- The protocol dispatcher never raises the outstanding-request flag. -/
lemma dispatch_awaiting_mono (now : Nat) (msg : String) (s : CtrlState)
    (h : (dispatchPiMessage now msg s).1.awaitingPiResponseAfterMotion = true) :
    s.awaitingPiResponseAfterMotion = true := by
  simp only [dispatchPiMessage, startLedFlash] at h
  split_ifs at h <;> simp_all

/-- The protocol dispatcher never emits `MOTION_DETECTED`. -/
lemma dispatch_motion_free (now : Nat) (msg : String) (s : CtrlState) :
    OutMsg.motionDetected ∉ (dispatchPiMessage now msg s).2 := by
  simp only [dispatchPiMessage, startLedFlash, sendTargetAnimalToPi]
  split_ifs <;> simp

/-- Reading one Pi message never raises the outstanding-request flag. -/
lemma checkPi_awaiting_mono (now : Nat) (s : CtrlState) (buf : Buf)
    (h : (checkPiMessages now s buf).1.awaitingPiResponseAfterMotion = true) :
    s.awaitingPiResponseAfterMotion = true := by
  match buf with
  | [] => exact h
  | line :: rest =>
    simp only [checkPiMessages] at h
    split_ifs at h
    · exact h
    · exact dispatch_awaiting_mono _ _ _ h

/-- Reading one Pi message never emits `MOTION_DETECTED`. -/
lemma checkPi_motion_free (now : Nat) (s : CtrlState) (buf : Buf) :
    OutMsg.motionDetected ∉ (checkPiMessages now s buf).2.2 := by
  match buf with
  | [] => simp [checkPiMessages]
  | line :: rest =>
    simp only [checkPiMessages]
    split_ifs
    · simp
    · exact dispatch_motion_free _ _ _

/-- Consuming the motion latch raises the outstanding-request flag only from
a state where the Pi is ready and no request is outstanding. -/
lemma motionStep_false_to_true (now : Nat) (s : CtrlState)
    (h : (motionStep now s).1.awaitingPiResponseAfterMotion = true) :
    s.awaitingPiResponseAfterMotion = true ∨
      (s.piIsReady = true ∧ s.awaitingPiResponseAfterMotion = false) := by
  simp only [motionStep] at h
  split_ifs at h <;> simp_all

/-- A motion edge consumed while a request is outstanding emits no
`MOTION_DETECTED`. -/
lemma motionStep_motion_free_of_awaiting (now : Nat) (s : CtrlState)
    (h : s.awaitingPiResponseAfterMotion = true) :
    OutMsg.motionDetected ∉ (motionStep now s).2 := by
  simp only [motionStep]
  split_ifs <;> simp_all

/-- Consuming the motion latch emits `MOTION_DETECTED` when the flag is set,
the Pi is ready, and no request is outstanding. -/
lemma motionStep_emits (now : Nat) (s : CtrlState)
    (h1 : s.motionDetectedISRQFlag = true) (h2 : s.piIsReady = true)
    (h3 : s.awaitingPiResponseAfterMotion = false) :
    OutMsg.motionDetected ∈ (motionStep now s).2 := by
  simp only [motionStep]
  simp [h1, h2, h3]

/-- Consuming the motion latch leaves the heartbeat timestamp alone. -/
lemma motionStep_hb_eq (now : Nat) (s : CtrlState) :
    (motionStep now s).1.lastHeartbeatToPi = s.lastHeartbeatToPi := by
  simp only [motionStep]
  split_ifs <;> rfl

/-- Consuming the motion latch never emits `ARDUINO_HEARTBEAT`. -/
lemma motionStep_hb_free (now : Nat) (s : CtrlState) :
    OutMsg.arduinoHeartbeat ∉ (motionStep now s).2 := by
  simp only [motionStep]
  split_ifs <;> simp

/-- The timeout check never raises the outstanding-request flag. -/
lemma timeoutStep_awaiting_mono (now : Nat) (s : CtrlState)
    (h : (timeoutStep now s).1.awaitingPiResponseAfterMotion = true) :
    s.awaitingPiResponseAfterMotion = true := by
  simp only [timeoutStep] at h
  split_ifs at h
  simp_all

/-- The timeout check never emits `MOTION_DETECTED`. -/
lemma timeoutStep_motion_free (now : Nat) (s : CtrlState) :
    OutMsg.motionDetected ∉ (timeoutStep now s).2 := by
  unfold timeoutStep
  split_ifs <;> simp

/-- The timeout check leaves the heartbeat timestamp alone. -/
lemma timeoutStep_hb_eq (now : Nat) (s : CtrlState) :
    (timeoutStep now s).1.lastHeartbeatToPi = s.lastHeartbeatToPi := by
  unfold timeoutStep
  split_ifs <;> rfl

/-- The timeout check never emits `ARDUINO_HEARTBEAT`. -/
lemma timeoutStep_hb_free (now : Nat) (s : CtrlState) :
    OutMsg.arduinoHeartbeat ∉ (timeoutStep now s).2 := by
  unfold timeoutStep
  split_ifs <;> simp

/-- The LED update leaves the outstanding-request flag alone. -/
lemma updateLed_awaiting_eq (now : Nat) (a : Bool) (s : CtrlState) :
    (updateLed now a s).1.awaitingPiResponseAfterMotion =
      s.awaitingPiResponseAfterMotion := by
  unfold updateLed
  split_ifs <;> rfl

/-- The LED update never emits `MOTION_DETECTED`. -/
lemma updateLed_motion_free (now : Nat) (a : Bool) (s : CtrlState) :
    OutMsg.motionDetected ∉ (updateLed now a s).2 := by
  unfold updateLed
  split_ifs <;> simp

/-- The LED update leaves the heartbeat timestamp alone. -/
lemma updateLed_hb_eq (now : Nat) (a : Bool) (s : CtrlState) :
    (updateLed now a s).1.lastHeartbeatToPi = s.lastHeartbeatToPi := by
  unfold updateLed
  split_ifs <;> rfl

/-- The LED update never emits `ARDUINO_HEARTBEAT`. -/
lemma updateLed_hb_free (now : Nat) (a : Bool) (s : CtrlState) :
    OutMsg.arduinoHeartbeat ∉ (updateLed now a s).2 := by
  unfold updateLed
  split_ifs <;> simp

/-- The heartbeat block leaves the outstanding-request flag alone. -/
lemma heartbeatStep_awaiting_eq (now : Nat) (s : CtrlState) :
    (heartbeatStep now s).1.awaitingPiResponseAfterMotion =
      s.awaitingPiResponseAfterMotion := by
  unfold heartbeatStep
  split_ifs <;> rfl

/-- The heartbeat block never emits `MOTION_DETECTED`. -/
lemma heartbeatStep_motion_free (now : Nat) (s : CtrlState) :
    OutMsg.motionDetected ∉ (heartbeatStep now s).2 := by
  unfold heartbeatStep
  split_ifs <;> simp

/-- The heartbeat block emits `ARDUINO_HEARTBEAT` exactly when more than the
heartbeat interval has elapsed since `lastHeartbeatToPi`. -/
lemma heartbeatStep_mem_iff (now : Nat) (s : CtrlState) :
    OutMsg.arduinoHeartbeat ∈ (heartbeatStep now s).2 ↔
      wsub now s.lastHeartbeatToPi > HEARTBEAT_INTERVAL_MS := by
  unfold heartbeatStep
  split_ifs with h <;> simp_all

/-- The local-command handler leaves the outstanding-request flag alone. -/
lemma handleLocal_awaiting_eq (now : Nat) (s : CtrlState) (buf : Buf) :
    (handleLocalCommands now s buf).1.awaitingPiResponseAfterMotion =
      s.awaitingPiResponseAfterMotion := by
  match buf with
  | [] => rfl
  | line :: rest =>
    simp only [handleLocalCommands, startLedFlash]
    cases line.data.head? with
    | none => rfl
    | some c =>
      simp only []
      split_ifs <;> rfl

/-- The local-command handler never emits `MOTION_DETECTED`. -/
lemma handleLocal_motion_free (now : Nat) (s : CtrlState) (buf : Buf) :
    OutMsg.motionDetected ∉ (handleLocalCommands now s buf).2.2 := by
  match buf with
  | [] => simp [handleLocalCommands]
  | line :: rest =>
    simp only [handleLocalCommands, startLedFlash, sendTargetAnimalToPi]
    cases line.data.head? with
    | none => simp
    | some c =>
      simp only []
      split_ifs <;> simp

/-- The local-command handler never emits `ARDUINO_HEARTBEAT`. -/
lemma handleLocal_hb_free (now : Nat) (s : CtrlState) (buf : Buf) :
    OutMsg.arduinoHeartbeat ∉ (handleLocalCommands now s buf).2.2 := by
  match buf with
  | [] => simp [handleLocalCommands]
  | line :: rest =>
    simp only [handleLocalCommands, startLedFlash, sendTargetAnimalToPi]
    cases line.data.head? with
    | none => simp
    | some c =>
      simp only []
      split_ifs <;> simp

/-!
Claim theorems.
-/

/-- C1: at-most-one request in flight.  Over a whole control-loop tick, the
outstanding-request flag `awaitingPiResponseAfterMotion` can only end up true
if, at the point of the motion decision (after input handling), it was
already true or the Pi was ready with no request outstanding; and if a
request was still outstanding at the motion decision, the tick emits no
`MOTION_DETECTED` message. -/
theorem c1_at_most_one_request_in_flight (now : Nat) (s : CtrlState) (buf : Buf) :
    ((tick now s buf).1.awaitingPiResponseAfterMotion = true →
      (checkPiMessages now s buf).1.awaitingPiResponseAfterMotion = true ∨
        ((checkPiMessages now s buf).1.piIsReady = true ∧
         (checkPiMessages now s buf).1.awaitingPiResponseAfterMotion = false)) ∧
    ((checkPiMessages now s buf).1.awaitingPiResponseAfterMotion = true →
      OutMsg.motionDetected ∉ (tick now s buf).2.2) := by
  constructor
  · intro h
    simp only [tick] at h
    rw [handleLocal_awaiting_eq, heartbeatStep_awaiting_eq, updateLed_awaiting_eq] at h
    exact motionStep_false_to_true _ _ (timeoutStep_awaiting_mono _ _ h)
  · intro h hmem
    simp only [tick, List.mem_append] at hmem
    have n1 := checkPi_motion_free now s buf
    have n2 := motionStep_motion_free_of_awaiting now _ h
    have n3 := timeoutStep_motion_free now (motionStep now (checkPiMessages now s buf).1).1
    have n4 := updateLed_motion_free now
      (motionIsActive now (motionStep now (checkPiMessages now s buf).1).1)
      (timeoutStep now (motionStep now (checkPiMessages now s buf).1).1).1
    have n5 := heartbeatStep_motion_free now
      (updateLed now (motionIsActive now (motionStep now (checkPiMessages now s buf).1).1)
        (timeoutStep now (motionStep now (checkPiMessages now s buf).1).1).1).1
    have n6 := handleLocal_motion_free now
      (heartbeatStep now
        (updateLed now (motionIsActive now (motionStep now (checkPiMessages now s buf).1).1)
          (timeoutStep now (motionStep now (checkPiMessages now s buf).1).1).1).1).1
      (checkPiMessages now s buf).2.1
    tauto

/-- C1 witness: with a request outstanding and empty input, a tick in which
the motion latch fires emits no `MOTION_DETECTED`. -/
theorem c1_at_most_one_request_in_flight_witness :
    OutMsg.motionDetected ∉
      (tick 1000 { initState with piIsReady := true,
                                  awaitingPiResponseAfterMotion := true,
                                  motionDetectedISRQFlag := true } []).2.2 :=
  (c1_at_most_one_request_in_flight 1000
    { initState with piIsReady := true, awaitingPiResponseAfterMotion := true,
                     motionDetectedISRQFlag := true } []).2 (by decide)

/-- C2 counterexample: serial input is not fully drained within a tick.  With
a request outstanding, a motion edge latched, and two pending lines
`PI_PONG` then `DOG_CONFIRMED`, the tick dispatches only `PI_PONG`; the
companion response `DOG_CONFIRMED` is never seen by the protocol handler (the
local-command handler discards it at the end of the tick), the request stays
outstanding, and no `MOTION_DETECTED` is emitted — whereas full draining
would have cleared the flag and emitted a new request. -/
theorem c2_counterexample_not_fully_drained :
    OutMsg.motionDetected ∉
      (tick 1000 { initState with piIsReady := true,
                                  awaitingPiResponseAfterMotion := true,
                                  motionDetectedISRQFlag := true }
        ["PI_PONG", "DOG_CONFIRMED"]).2.2 ∧
    (tick 1000 { initState with piIsReady := true,
                                awaitingPiResponseAfterMotion := true,
                                motionDetectedISRQFlag := true }
        ["PI_PONG", "DOG_CONFIRMED"]).1.awaitingPiResponseAfterMotion = true ∧
    (tick 1000 { initState with piIsReady := true,
                                awaitingPiResponseAfterMotion := true,
                                motionDetectedISRQFlag := true }
        ["PI_PONG", "DOG_CONFIRMED"]).2.1 = [] := by
  decide

/-- C2 amended: within a tick, at most one pending line is dispatched to the
protocol handler, and it is dispatched before the motion latch is consumed:
a companion response that is the first pending line is always observed before
the loop decides whether to emit a new `MOTION_DETECTED` request. -/
theorem c2_one_line_dispatched_before_motion (now : Nat) (s : CtrlState)
    (line : String) (rest : Buf)
    (hline : strTrim line = "DOG_CONFIRMED")
    (hready : s.piIsReady = true)
    (hflag : s.motionDetectedISRQFlag = true) :
    OutMsg.motionDetected ∈ (tick now s (line :: rest)).2.2 ∧
    (checkPiMessages now s (line :: rest)).2.1 = rest := by
  have hcp : (checkPiMessages now s (line :: rest)).1 =
      (dispatchPiMessage now "DOG_CONFIRMED" s).1 ∧
      (checkPiMessages now s (line :: rest)).2.1 = rest := by
    simp only [checkPiMessages, hline]
    constructor <;> rfl
  have hd : (dispatchPiMessage now "DOG_CONFIRMED" s).1.motionDetectedISRQFlag =
        s.motionDetectedISRQFlag ∧
      (dispatchPiMessage now "DOG_CONFIRMED" s).1.piIsReady = s.piIsReady ∧
      (dispatchPiMessage now "DOG_CONFIRMED" s).1.awaitingPiResponseAfterMotion = false := by
    simp +decide only [dispatchPiMessage, startLedFlash]
    split_ifs <;> simp_all
  refine ⟨?_, hcp.2⟩
  simp only [tick]
  rw [hcp.1]
  exact List.mem_append_left _ (List.mem_append_left _ (List.mem_append_left _
    (List.mem_append_left _ (List.mem_append_right _
      (motionStep_emits _ _ (by rw [hd.1, hflag]) (by rw [hd.2.1, hready]) hd.2.2)))))

/-- C2 amended witness: a companion response at the head of the pending input
in the same tick as a motion edge is observed first, and a new request goes
out. -/
theorem c2_one_line_dispatched_before_motion_witness :
    OutMsg.motionDetected ∈
      (tick 10 { initState with piIsReady := true, motionDetectedISRQFlag := true }
        ["DOG_CONFIRMED"]).2.2 :=
  (c2_one_line_dispatched_before_motion 10
    { initState with piIsReady := true, motionDetectedISRQFlag := true }
    "DOG_CONFIRMED" [] rfl rfl rfl).1

/-- C3 counterexample: heartbeat cadence is not independent of inbound
companion messages.  From the boot state at time 16000 (more than one
heartbeat interval since `lastHeartbeatToPi = 0`), a tick with empty input
emits `ARDUINO_HEARTBEAT`, but the same tick with a pending `PI_PONG` does
not: the `PI_PONG` handler resets `lastHeartbeatToPi` and postpones the
ping. -/
theorem c3_counterexample_inbound_resets_cadence :
    OutMsg.arduinoHeartbeat ∈ (tick 16000 initState []).2.2 ∧
    OutMsg.arduinoHeartbeat ∉ (tick 16000 initState ["PI_PONG"]).2.2 := by
  decide

/-- C3 amended: with no inbound message in the tick, `ARDUINO_HEARTBEAT` is
emitted exactly when more than the heartbeat interval has elapsed since
`lastHeartbeatToPi`, for every state — in particular independently of
companion readiness; however, inbound `PI_PONG` and `PI_READY` messages reset
`lastHeartbeatToPi` to the current time, postponing the next ping. -/
theorem c3_heartbeat_cadence (now : Nat) (s : CtrlState) :
    (OutMsg.arduinoHeartbeat ∈ (tick now s []).2.2 ↔
      wsub now s.lastHeartbeatToPi > HEARTBEAT_INTERVAL_MS) ∧
    (dispatchPiMessage now "PI_PONG" s).1.lastHeartbeatToPi = now ∧
    (dispatchPiMessage now "PI_READY" s).1.lastHeartbeatToPi = now := by
  refine ⟨?_, by simp +decide [dispatchPiMessage], by simp +decide [dispatchPiMessage]⟩
  have hcp : checkPiMessages now s [] = (s, [], []) := rfl
  have n2 := motionStep_hb_free now s
  have n3 := timeoutStep_hb_free now (motionStep now s).1
  have n4 := updateLed_hb_free now (motionIsActive now (motionStep now s).1)
    (timeoutStep now (motionStep now s).1).1
  have n5 : OutMsg.arduinoHeartbeat ∈
      (heartbeatStep now (updateLed now (motionIsActive now (motionStep now s).1)
        (timeoutStep now (motionStep now s).1).1).1).2 ↔
      wsub now s.lastHeartbeatToPi > HEARTBEAT_INTERVAL_MS := by
    rw [heartbeatStep_mem_iff, updateLed_hb_eq, timeoutStep_hb_eq, motionStep_hb_eq]
  simp only [tick, hcp, List.mem_append, List.not_mem_nil, handleLocalCommands]
  tauto

/-- C4: timeout recovery.  If a request is outstanding and more than the
response timeout has elapsed since it was issued, the timeout check clears
the flag, emits only a diagnostic log (no protocol message), and — the flag
now being false — fires at most once: running it again at any later time is
a no-op. -/
theorem c4_timeout_recovery (now now2 : Nat) (s : CtrlState)
    (h1 : s.awaitingPiResponseAfterMotion = true)
    (h2 : wsub now s.lastMotionSignalToPiTime > PI_RESPONSE_TIMEOUT_MS) :
    (timeoutStep now s).1.awaitingPiResponseAfterMotion = false ∧
    (∀ m ∈ (timeoutStep now s).2, m.isProtocol = false) ∧
    timeoutStep now2 (timeoutStep now s).1 = ((timeoutStep now s).1, []) := by
  simp only [timeoutStep, h1, h2]
  simp [OutMsg.isProtocol]

/-- C4 witness: a request issued at time 0 that is still outstanding at time
30000 is cleared by the timeout check. -/
theorem c4_timeout_recovery_witness :
    (timeoutStep 30000 { initState with awaitingPiResponseAfterMotion := true }).1.awaitingPiResponseAfterMotion
      = false :=
  (c4_timeout_recovery 30000 0 { initState with awaitingPiResponseAfterMotion := true }
    rfl (by decide)).1

/-- C5: a confirmation message naming the currently configured target clears
the outstanding-request flag and puts the indicator in the Flashing state
(recording the entry time when not already flashing); while flashing, the
episode persists until the fixed flash duration has elapsed, toggling the
LED at the blink interval; when the duration has elapsed, flashing ends and
the LED output equals the motion-active derivation at that instant. -/
theorem c5_target_confirmation_flash_episode (now : Nat) (s : CtrlState) (rest : Buf)
    (htgt : s.currentTargetAnimal = "CAT" ∨ s.currentTargetAnimal = "DOG") :
    (checkPiMessages now s
        ((s.currentTargetAnimal ++ "_CONFIRMED") :: rest)).1.awaitingPiResponseAfterMotion
      = false ∧
    (checkPiMessages now s
        ((s.currentTargetAnimal ++ "_CONFIRMED") :: rest)).1.isLedFlashing = true ∧
    (s.isLedFlashing = false →
      (checkPiMessages now s
          ((s.currentTargetAnimal ++ "_CONFIRMED") :: rest)).1.ledFlashStartTime = now) ∧
    (∀ t a, s.isLedFlashing = true →
      wsub t s.ledFlashStartTime < LED_FLASH_DURATION_MS →
      (updateLed t a s).1.isLedFlashing = true ∧
      (LED_BLINK_INTERVAL_MS ≤ wsub t s.lastLedBlinkTime →
        (updateLed t a s).1.ledBlinkState = !s.ledBlinkState ∧
        (updateLed t a s).1.ledPin = !s.ledBlinkState ∧
        (updateLed t a s).1.lastLedBlinkTime = t)) ∧
    (∀ t, s.isLedFlashing = true →
      LED_FLASH_DURATION_MS ≤ wsub t s.ledFlashStartTime →
      (updateLed t (motionIsActive t s) s).1.isLedFlashing = false ∧
      (updateLed t (motionIsActive t s) s).1.ledPin = motionIsActive t s) := by
  refine ⟨?_, ?_, ?_, ?_, ?_⟩
  · rcases htgt with h | h <;>
      (simp +decide [checkPiMessages, dispatchPiMessage, startLedFlash, h];
       split_ifs <;> simp_all)
  · rcases htgt with h | h <;>
      (simp +decide [checkPiMessages, dispatchPiMessage, startLedFlash, h];
       split_ifs <;> simp_all)
  · intro hf
    rcases htgt with h | h <;>
      simp +decide [checkPiMessages, dispatchPiMessage, startLedFlash, h, hf]
  · intro t a h1 h2
    have hnd : ¬ LED_FLASH_DURATION_MS ≤ wsub t s.ledFlashStartTime := Nat.not_le.mpr h2
    refine ⟨?_, ?_⟩
    · simp only [updateLed, h1, if_true]
      rw [if_neg hnd]
      split_ifs <;> simp [h1]
    · intro h3
      simp only [updateLed, h1, if_true]
      rw [if_neg hnd, if_pos h3]
      exact ⟨rfl, rfl, rfl⟩
  · intro t h1 h2
    simp [updateLed, h1, h2]

/-- C5 witness: with the default target `DOG`, receiving `DOG_CONFIRMED`
clears the outstanding-request flag and enters the flashing state. -/
theorem c5_target_confirmation_flash_episode_witness :
    (checkPiMessages 7 initState ["DOG_CONFIRMED"]).1.awaitingPiResponseAfterMotion = false ∧
    (checkPiMessages 7 initState ["DOG_CONFIRMED"]).1.isLedFlashing = true :=
  ⟨(c5_target_confirmation_flash_episode 7 initState [] (Or.inr rfl)).1,
   (c5_target_confirmation_flash_episode 7 initState [] (Or.inr rfl)).2.1⟩

/-- C6: a confirmation message naming an animal that does not match the
current target clears the outstanding-request flag but never enters the
Flashing state. -/
theorem c6_mismatched_confirmation_no_flash (now : Nat) (s : CtrlState) (rest : Buf) :
    (s.currentTargetAnimal ≠ "CAT" →
      (checkPiMessages now s ("CAT_CONFIRMED" :: rest)).1.awaitingPiResponseAfterMotion
        = false ∧
      (checkPiMessages now s ("CAT_CONFIRMED" :: rest)).1.isLedFlashing = s.isLedFlashing) ∧
    (s.currentTargetAnimal ≠ "DOG" →
      (checkPiMessages now s ("DOG_CONFIRMED" :: rest)).1.awaitingPiResponseAfterMotion
        = false ∧
      (checkPiMessages now s ("DOG_CONFIRMED" :: rest)).1.isLedFlashing = s.isLedFlashing) := by
  constructor <;> intro h <;>
    (simp +decide [checkPiMessages, dispatchPiMessage, startLedFlash];
     split_ifs <;> simp_all)

/-- C6 witness: with target `DOG`, `CAT_CONFIRMED` clears the flag and the
indicator does not start flashing. -/
theorem c6_mismatched_confirmation_no_flash_witness :
    (checkPiMessages 3 initState ["CAT_CONFIRMED"]).1.awaitingPiResponseAfterMotion = false ∧
    (checkPiMessages 3 initState ["CAT_CONFIRMED"]).1.isLedFlashing = initState.isLedFlashing :=
  (c6_mismatched_confirmation_no_flash 3 initState []).1 (by decide)

/-- C7: a `SET_TARGET:<value>` command whose normalized (uppercased) value is
neither `CAT` nor `DOG` is rejected with an error report, leaves the whole
state (in particular the current target) unchanged, and sends no protocol
message. -/
theorem c7_set_target_rejects_invalid (now : Nat) (s : CtrlState) (cmd : String) (rest : Buf)
    (hhead : cmd.data.head? = some 'S')
    (hst : strStartsWith (strTrim cmd) "SET_TARGET:" = true)
    (hcat : strToUpper (strDrop (strTrim cmd) 11) ≠ "CAT")
    (hdog : strToUpper (strDrop (strTrim cmd) 11) ≠ "DOG") :
    handleLocalCommands now s (cmd :: rest) =
      (s, rest, [OutMsg.log "ERROR: Invalid target. Use CAT or DOG."]) ∧
    ∀ m ∈ (handleLocalCommands now s (cmd :: rest)).2.2, m.isProtocol = false := by
  have heq : handleLocalCommands now s (cmd :: rest) =
      (s, rest, [OutMsg.log "ERROR: Invalid target. Use CAT or DOG."]) := by
    simp only [handleLocalCommands, hhead]
    simp [hst, hcat, hdog]
  exact ⟨heq, by rw [heq]; simp [OutMsg.isProtocol]⟩

/-- C7 witness: `SET_TARGET:bird` is rejected, the state is unchanged and
only the error line is printed. -/
theorem c7_set_target_rejects_invalid_witness :
    handleLocalCommands 9 initState ["SET_TARGET:bird"] =
      (initState, [], [OutMsg.log "ERROR: Invalid target. Use CAT or DOG."]) :=
  (c7_set_target_rejects_invalid 9 initState "SET_TARGET:bird" [] rfl rfl
    (by decide) (by decide)).1

/-- C8: `SET_TARGET` is case-insensitive and idempotent: the value is
uppercased before comparison; a first call with a new valid value mutates
the target, reports a configuration change, and transmits `TARGET_ANIMAL`
when the Pi is ready; a second call with the same normalized value leaves the
state unchanged and only reports that the target is already set. -/
theorem c8_set_target_idempotent_case_insensitive (now now2 : Nat) (s : CtrlState)
    (cmd : String) (rest rest2 : Buf)
    (hhead : cmd.data.head? = some 'S')
    (hst : strStartsWith (strTrim cmd) "SET_TARGET:" = true)
    (hval : strToUpper (strDrop (strTrim cmd) 11) = "CAT" ∨
            strToUpper (strDrop (strTrim cmd) 11) = "DOG")
    (hdiff : strToUpper (strDrop (strTrim cmd) 11) ≠ s.currentTargetAnimal) :
    (handleLocalCommands now s (cmd :: rest)).1.currentTargetAnimal =
      strToUpper (strDrop (strTrim cmd) 11) ∧
    (handleLocalCommands now s (cmd :: rest)).1.piIsReady = s.piIsReady ∧
    OutMsg.log ("CONFIG: Target animal preference changed locally to: " ++
        strToUpper (strDrop (strTrim cmd) 11)) ∈
      (handleLocalCommands now s (cmd :: rest)).2.2 ∧
    (s.piIsReady = true →
      OutMsg.targetAnimal (strToUpper (strDrop (strTrim cmd) 11)) ∈
        (handleLocalCommands now s (cmd :: rest)).2.2) ∧
    handleLocalCommands now2 (handleLocalCommands now s (cmd :: rest)).1 (cmd :: rest2) =
      ((handleLocalCommands now s (cmd :: rest)).1, rest2,
       [OutMsg.log ("INFO: Target animal is already " ++
          strToUpper (strDrop (strTrim cmd) 11))]) := by
  have hcond : (strToUpper (strDrop (strTrim cmd) 11) == "CAT"
      || strToUpper (strDrop (strTrim cmd) 11) == "DOG") = true := by
    rcases hval with h | h <;> simp [h]
  have h1 : handleLocalCommands now s (cmd :: rest) =
      ({ s with currentTargetAnimal := strToUpper (strDrop (strTrim cmd) 11) }, rest,
       [OutMsg.log ("CONFIG: Target animal preference changed locally to: " ++
          strToUpper (strDrop (strTrim cmd) 11))] ++
        sendTargetAnimalToPi
          { s with currentTargetAnimal := strToUpper (strDrop (strTrim cmd) 11) }) := by
    simp only [handleLocalCommands, hhead]
    simp [hst, hcond, hdiff]
  have h2 : handleLocalCommands now2
      ({ s with currentTargetAnimal := strToUpper (strDrop (strTrim cmd) 11) }) (cmd :: rest2) =
      ({ s with currentTargetAnimal := strToUpper (strDrop (strTrim cmd) 11) }, rest2,
       [OutMsg.log ("INFO: Target animal is already " ++
          strToUpper (strDrop (strTrim cmd) 11))]) := by
    simp only [handleLocalCommands, hhead]
    simp [hst, hcond]
  refine ⟨by rw [h1], by rw [h1], by rw [h1]; simp, ?_, by rw [h1]; exact h2⟩
  intro hr
  rw [h1]
  simp [sendTargetAnimalToPi, hr]

/-- C8 witness: from the boot state with the Pi ready, `SET_TARGET:cat`
(lowercase) is normalized to `CAT` and adopted. -/
theorem c8_set_target_idempotent_case_insensitive_witness :
    (handleLocalCommands 1 { initState with piIsReady := true }
        ["SET_TARGET:cat"]).1.currentTargetAnimal = "CAT" :=
  (c8_set_target_idempotent_case_insensitive 1 2 { initState with piIsReady := true }
    "SET_TARGET:cat" [] [] rfl rfl (Or.inl (by decide)) (by decide)).1

/-- C9: for every prior state, receiving `PI_SHUTTING_DOWN` forces
`piIsReady = false` and `awaitingPiResponseAfterMotion = false`. -/
theorem c9_shutdown_clears_readiness_and_request (now : Nat) (s : CtrlState) (rest : Buf) :
    (checkPiMessages now s ("PI_SHUTTING_DOWN" :: rest)).1.piIsReady = false ∧
    (checkPiMessages now s ("PI_SHUTTING_DOWN" :: rest)).1.awaitingPiResponseAfterMotion
      = false := by
  simp +decide [checkPiMessages, dispatchPiMessage]

/-- C10: while `lastMotionTimestamp` is still at its initial zero value, the
motion-active derivation is false at every time, and outside the flashing
state the LED is driven low. -/
theorem c10_indicator_off_before_first_motion (now : Nat) (s : CtrlState)
    (h : s.lastMotionTimestamp = 0) :
    motionIsActive now s = false ∧
    (s.isLedFlashing = false →
      (updateLed now (motionIsActive now s) s).1.ledPin = false) := by
  have hma : motionIsActive now s = false := by
    simp [motionIsActive, h]
  refine ⟨hma, fun hf => ?_⟩
  simp [updateLed, hf, hma]

/-- C10 witness: at boot, arbitrarily long after start, the motion derivation
is false and the LED output is low. -/
theorem c10_indicator_off_before_first_motion_witness :
    motionIsActive 999999 initState = false :=
  (c10_indicator_off_before_first_motion 999999 initState rfl).1

end PetFeeder
